import Mathlib

/-!
Verification of the Api_Guard test-execution engine.

Shallow embedding of the engine's core:
  * `validateBodies` and `runIdempotencyTest`
    (apps/server/src/engine/runners/idempotency.ts),
  * `runRaceConditionTest` (engine/runners/race-conditions.ts),
  * the oracle client `askGroqJSON` / `analyzeIdempotencySchema` /
    `evaluateIdempotencyMismatch` / `analyzeRaceConditionIntent`
    (apps/server/src/utils/ai.ts),
  * the queue worker processor (apps/server/src/workers/worker.ts).

Network and oracle I/O is modelled by passing each call's outcome as an
explicit argument: `Option HttpResponse` for an axios/fetch call (`none`
means the call threw: network error or timeout), `Option T` for a Groq
completion (`none` means the request failed or the content did not parse).
-/

namespace ApiGuard

/-- The canonical verdict enum shared by runners and the worker. -/
inductive Verdict
  | PASS
  | FAIL
  | WARN
  | ERROR
deriving DecidableEq, Repr

/-- The `'PASS' | 'FAIL'` verdict type of the oracle's mismatch adjudicator
(`MismatchVerdict.verdict` in utils/ai.ts). -/
inductive PFVerdict
  | PASS
  | FAIL
deriving DecidableEq, Repr

/-- Injection of the adjudicator's two-valued verdict into the shared enum,
as happens implicitly in `verdict: aiJudgment.verdict` in the runner. -/
def PFVerdict.toVerdict : PFVerdict → Verdict
  | .PASS => .PASS
  | .FAIL => .FAIL

/-- A primitive JSON value (string / number / boolean).  Response bodies in
the TypeScript source are untyped `any`; the runners only ever compare
values for (deep) equality, so a first-order value type suffices. -/
inductive JVal
  | s : String → JVal
  | n : Int → JVal
  | b : Bool → JVal
deriving DecidableEq, Repr

/-- A response body: either a structured object (`typeof data === 'object'`)
given as its key/value pairs, or a non-object primitive.  Lodash path
lookup is modelled with flat keys (the schemas produced by the oracle or by
`Object.keys` address top-level fields). -/
inductive RespData
  | obj : List (String × JVal) → RespData
  | raw : JVal → RespData
deriving DecidableEq, Repr

/-- `typeof data === 'object'`. -/
def isObjectData : RespData → Bool
  | .obj _ => true
  | .raw _ => false

/-- `_.get(body, field)`: `some v` when the field is present, `none` for
JavaScript `undefined` (absent field, or any lookup on a non-object). -/
def getField (body : RespData) (f : String) : Option JVal :=
  match body with
  | .obj kvs => (kvs.find? (fun kv => kv.1 == f)).map (·.2)
  | .raw _ => none

/-- JavaScript strict equality `===` as used on the two response bodies in
the Non-JSON branch.  That branch only runs when `res1.data` is a
non-object, where `===` is primitive value equality; a primitive is never
strictly equal to an object.  (Object-to-object `===` would be reference
identity, but that case is unreachable under the branch's guard.) -/
def strictEq : RespData → RespData → Bool
  | .raw v1, .raw v2 => v1 == v2
  | _, _ => false

/-- The field-classification schema (`IdempotencySchema` in utils/ai.ts):
identity / noise / data field lists.  The source guards `schema.identity
|| []` against malformed oracle output; here the type already guarantees
the lists exist. -/
structure IdempotencySchema where
  identity : List String
  noise : List String
  data : List String
deriving DecidableEq, Repr

/-- What `validateBodies` returns: verdict, title, description, and the
first differing field with both values when one was found. -/
structure ValidationOutcome where
  verdict : Verdict
  title : String
  description : String
  diff : Option (String × Option JVal × Option JVal)
deriving DecidableEq, Repr

/-- The `for (const field of ...)` loops in `validateBodies`: walk the
field list in order and return the first field whose looked-up values in
the two bodies are not `_.isEqual`, together with both values. -/
def firstDiff (body1 body2 : RespData) : List String → Option (String × Option JVal × Option JVal)
  | [] => none
  | field :: rest =>
      let val1 := getField body1 field
      let val2 := getField body2 field
      if val1 ≠ val2 then some (field, val1, val2)
      else firstDiff body1 body2 rest

/-- `validateBodies(body1, body2, schema)`: identity fields first (FAIL on
the first mismatch), then data fields (WARN on the first mismatch), else
PASS.  Noise fields are never inspected. -/
def validateBodies (body1 body2 : RespData) (schema : IdempotencySchema) : ValidationOutcome :=
  match firstDiff body1 body2 schema.identity with
  | some (field, val1, val2) =>
      { verdict := .FAIL
        title := "Double Execution Detected"
        description := s!"Critical identity field {field} changed. This implies a new resource was created."
        diff := some (field, val1, val2) }
  | none =>
      match firstDiff body1 body2 schema.data with
      | some (field, val1, val2) =>
          { verdict := .WARN
            title := "State Mutation Detected"
            description := s!"Field {field} changed value. This might be a side-effect, but the resource ID remained stable."
            diff := some (field, val1, val2) }
      | none =>
          { verdict := .PASS
            title := "Idempotent Response"
            description := "Response body is functionally identical (ignoring dynamic metadata)."
            diff := none }

/-! ## Semantic oracle client (apps/server/src/utils/ai.ts) -/

/-- `askGroqJSON(systemPrompt, userPrompt, fallback)`: the Groq completion
request is modelled by its outcome `oracleResponse` (`some t` = the call
succeeded and the content parsed as a `T`; `none` = the request threw or
the content failed to parse).  The `catch` swallows every failure into the
fallback, so the function never raises to its caller. -/
def askGroqJSON {T : Type} (oracleResponse : Option T) (fallback : T) : T :=
  match oracleResponse with
  | some t => t
  | none => fallback

/-- JavaScript truthiness test `!responseBody` on a response body: an
object is always truthy; a primitive is falsy when it is `""`, `0` or
`false` (JSON `null` is not modelled). -/
def isFalsy : RespData → Bool
  | .obj _ => false
  | .raw (.s str) => str == ""
  | .raw (.n k) => k == 0
  | .raw (.b bb) => bb == false

/-- `Object.keys(responseBody)`: the top-level keys of an object; for
primitive numbers and booleans the result is empty (the character-index
keys JavaScript gives for strings are not modelled). -/
def objectKeys : RespData → List String
  | .obj kvs => kvs.map (·.1)
  | .raw _ => []

/-- `analyzeIdempotencySchema(responseBody, status)`: empty or falsy bodies
short-circuit to the all-empty schema without consulting the oracle;
otherwise the Groq call runs with fallback
`identity=[], noise=[], data=Object.keys(responseBody)`.  The `status`
argument only feeds the prompt, which is part of the modelled-away oracle
input. -/
def analyzeIdempotencySchema (responseBody : RespData)
    (oracle : Option IdempotencySchema) : IdempotencySchema :=
  if isFalsy responseBody || (objectKeys responseBody).isEmpty then
    { identity := [], noise := [], data := [] }
  else
    askGroqJSON oracle { identity := [], noise := [], data := objectKeys responseBody }

/-- The adjudicator's answer: `{ verdict: 'PASS' | 'FAIL', reason }`. -/
structure MismatchVerdict where
  verdict : PFVerdict
  reason : String
deriving DecidableEq, Repr

/-- `evaluateIdempotencyMismatch(req1, req2)`: the two (status, body) pairs
only feed the prompt; the Groq call runs with the strict-fail fallback. -/
def evaluateIdempotencyMismatch (oracle : Option MismatchVerdict) : MismatchVerdict :=
  askGroqJSON oracle
    { verdict := .FAIL
      reason := "AI Analysis Failed, defaulting to strict fail." }

/-! ## Idempotency runner (engine/runners/idempotency.ts) -/

/-- An HTTP response as the runner sees it after axios resolves with
`validateStatus: () => true`: a status code and a body. -/
structure HttpResponse where
  status : Nat
  data : RespData
deriving DecidableEq, Repr

/-- The `meta` block of an idempotency result. -/
structure IdempotencyMeta where
  req1Status : Nat
  req2Status : Nat
  req1Time : Nat
  req2Time : Nat
  aiSchema : Option IdempotencySchema
  diff : Option (String × Option JVal × Option JVal)
deriving DecidableEq, Repr

/-- An idempotency probe result. -/
structure IdempotencyResult where
  verdict : Verdict
  title : String
  description : String
  meta : IdempotencyMeta
deriving DecidableEq, Repr

/-- `runIdempotencyTest(config)`.  The two axios calls are modelled by
their outcomes `resp1`, `resp2` (`none` = the call threw — network error
or the 8-second timeout — landing in the surrounding `catch`); `time1`,
`time2` are the measured latencies; `schemaOracle` and `mismatchOracle`
are the outcomes of the two possible Groq calls.  The returned `Nat` is
the number of HTTP requests the run issued.  The duplicated status-
mismatch block of the source (two consecutive `if (status1 !== status2)`
returns with identical bodies) is reproduced verbatim. -/
def runIdempotencyTest :
    Option HttpResponse → Option HttpResponse → Nat → Nat →
    Option IdempotencySchema → Option MismatchVerdict → IdempotencyResult × Nat
  | none, _, _, _, _, _ =>
      -- R1 threw; caught by the runner's try/catch, every meta field zeroed.
      ({ verdict := .ERROR
         title := "Execution Error"
         description := "Test runner failed."
         meta := ⟨0, 0, 0, 0, none, none⟩ }, 1)
  | some res1, resp2, time1, time2, schemaOracle, mismatchOracle =>
      if res1.status ≥ 500 then
        ({ verdict := .FAIL
           title := "Server Crash"
           description := "API returned a server error on the first request. Cannot test idempotency on a broken endpoint."
           meta := ⟨res1.status, 0, time1, 0, none, none⟩ }, 1)
      else
        let schema := analyzeIdempotencySchema res1.data schemaOracle
        match resp2 with
        | none =>
            -- R2 threw; same catch block, so meta is zeroed here too.
            ({ verdict := .ERROR
               title := "Execution Error"
               description := "Test runner failed."
               meta := ⟨0, 0, 0, 0, none, none⟩ }, 2)
        | some res2 =>
            -- Case A: perfect conflict handling (the gold standard)
            if 200 ≤ res1.status ∧ res1.status < 300 ∧ res2.status = 409 then
              ({ verdict := .PASS
                 title := "Conflict Correctly Handled"
                 description := "Server identified the duplicate request and returned 409 Conflict."
                 meta := ⟨res1.status, res2.status, time1, time2, none, none⟩ }, 2)
            else
              let status1 := res1.status
              let status2 := res2.status
              -- Case B: status code mismatch
              if status1 ≠ status2 then
                let aiJudgment := evaluateIdempotencyMismatch mismatchOracle
                ({ verdict := aiJudgment.verdict.toVerdict
                   title := if aiJudgment.verdict = .PASS then "Safe Idempotent Rejection"
                            else "Inconsistent Status Code"
                   description := aiJudgment.reason
                   meta := ⟨status1, status2, time1, time2, none, none⟩ }, 2)
              else if status1 ≠ status2 then
                -- duplicated block in the source, same guard and same body
                let aiJudgment := evaluateIdempotencyMismatch mismatchOracle
                ({ verdict := aiJudgment.verdict.toVerdict
                   title := if aiJudgment.verdict = .PASS then "Safe Idempotent Rejection"
                            else "Inconsistent Status Code"
                   description := aiJudgment.reason
                   meta := ⟨status1, status2, time1, time2, none, none⟩ }, 2)
              -- Case C: body verification; non-object bodies get a string compare
              else if ¬ isObjectData res1.data then
                ({ verdict := if strictEq res1.data res2.data then .PASS else .WARN
                   title := "Non-JSON Response"
                   description := "Response was text/html. Simple string comparison performed."
                   meta := ⟨res1.status, res2.status, time1, time2, none, none⟩ }, 2)
              else
                let validation := validateBodies res1.data res2.data schema
                ({ verdict := validation.verdict
                   title := validation.title
                   description := validation.description
                   meta := ⟨res1.status, res2.status, time1, time2, some schema, validation.diff⟩ }, 2)

/-- `runIdempotencyTest` with the duplicated status-mismatch block
removed and everything else kept identical: the candidate simplification
whose extensional equality with the source function is claim C10. -/
def runIdempotencyTestDedup :
    Option HttpResponse → Option HttpResponse → Nat → Nat →
    Option IdempotencySchema → Option MismatchVerdict → IdempotencyResult × Nat
  | none, _, _, _, _, _ =>
      ({ verdict := .ERROR
         title := "Execution Error"
         description := "Test runner failed."
         meta := ⟨0, 0, 0, 0, none, none⟩ }, 1)
  | some res1, resp2, time1, time2, schemaOracle, mismatchOracle =>
      if res1.status ≥ 500 then
        ({ verdict := .FAIL
           title := "Server Crash"
           description := "API returned a server error on the first request. Cannot test idempotency on a broken endpoint."
           meta := ⟨res1.status, 0, time1, 0, none, none⟩ }, 1)
      else
        let schema := analyzeIdempotencySchema res1.data schemaOracle
        match resp2 with
        | none =>
            ({ verdict := .ERROR
               title := "Execution Error"
               description := "Test runner failed."
               meta := ⟨0, 0, 0, 0, none, none⟩ }, 2)
        | some res2 =>
            if 200 ≤ res1.status ∧ res1.status < 300 ∧ res2.status = 409 then
              ({ verdict := .PASS
                 title := "Conflict Correctly Handled"
                 description := "Server identified the duplicate request and returned 409 Conflict."
                 meta := ⟨res1.status, res2.status, time1, time2, none, none⟩ }, 2)
            else
              let status1 := res1.status
              let status2 := res2.status
              if status1 ≠ status2 then
                let aiJudgment := evaluateIdempotencyMismatch mismatchOracle
                ({ verdict := aiJudgment.verdict.toVerdict
                   title := if aiJudgment.verdict = .PASS then "Safe Idempotent Rejection"
                            else "Inconsistent Status Code"
                   description := aiJudgment.reason
                   meta := ⟨status1, status2, time1, time2, none, none⟩ }, 2)
              else if ¬ isObjectData res1.data then
                ({ verdict := if strictEq res1.data res2.data then .PASS else .WARN
                   title := "Non-JSON Response"
                   description := "Response was text/html. Simple string comparison performed."
                   meta := ⟨res1.status, res2.status, time1, time2, none, none⟩ }, 2)
              else
                let validation := validateBodies res1.data res2.data schema
                ({ verdict := validation.verdict
                   title := validation.title
                   description := validation.description
                   meta := ⟨res1.status, res2.status, time1, time2, some schema, validation.diff⟩ }, 2)

/-! ## Race-condition runner (engine/runners/race-conditions.ts) -/

/-- The oracle's raw answer for `analyzeRaceConditionIntent`:
`max_successes` is a number or the literal string `'UNLIMITED'`. -/
inductive MaxSuccesses
  | num : Int → MaxSuccesses
  | UNLIMITED
deriving DecidableEq, Repr

/-- `{ max_successes, reason }` as parsed from the Groq content. -/
structure RawRaceConstraint where
  maxSuccesses : MaxSuccesses
  reason : String
deriving DecidableEq, Repr

/-- `analyzeRaceConditionIntent(method, url, body)` in utils/ai.ts: the
Groq call with fallback `{ max_successes: 1, reason: 'Fallback Default' }`,
then the client-side normalization `Number(x) || 1` (a zero becomes 1) and
`reason || 'AI Default'` (an empty string becomes the default). -/
def analyzeRaceConditionIntent (oracle : Option RawRaceConstraint) : RawRaceConstraint :=
  let result := askGroqJSON oracle { maxSuccesses := .num 1, reason := "Fallback Default" }
  { maxSuccesses :=
      match result.maxSuccesses with
      | .UNLIMITED => .UNLIMITED
      | .num k => .num (if k = 0 then 1 else k)
    reason := if result.reason = "" then "AI Default" else result.reason }

/-- Outcome of the race runner's `await analyzeRaceConditionIntent(...)`:
either the client returned (with the underlying Groq call having
succeeded with `raw`, or having failed so the client fell back), or the
client call itself threw, landing in the runner's own `catch`. -/
inductive OracleCall (T : Type)
  | ok : T → OracleCall T
  | groqFailure : OracleCall T
  | clientThrew : OracleCall T
deriving DecidableEq, Repr

/-- The constraint the race runner actually uses:
`{ max_successes: number, reason }` after the runner-side normalization
(`'UNLIMITED'` becomes 9999). -/
structure NormalizedConstraint where
  maxSuccesses : Int
  reason : String
deriving DecidableEq, Repr

/-- The runner-side normalization
`aiResult.max_successes === 'UNLIMITED' ? 9999 : Number(aiResult.max_successes) || 1`
with `reason: aiResult.reason` taken as-is. -/
def normalizeRunnerConstraint (aiResult : RawRaceConstraint) : NormalizedConstraint :=
  { maxSuccesses :=
      match aiResult.maxSuccesses with
      | .UNLIMITED => 9999
      | .num k => if k = 0 then 1 else k
    reason := aiResult.reason }

/-- What one entry of the burst settles to: `{ status, ok }`.  (The
captured `text` plays no part in the verdict and is not modelled.) -/
structure RaceResponse where
  status : Nat
  ok : Bool
deriving DecidableEq, Repr

/-- One `fetch` of the burst with its per-request `.then/.catch`: a
resolved response gives its status with `ok` exactly on 2xx; a rejection
(network error) is captured as `{ status: 0, ok: false }`. -/
def settleFetch : Option Nat → RaceResponse
  | some st => { status := st, ok := decide (200 ≤ st ∧ st < 300) }
  | none => { status := 0, ok := false }

/-- The `meta` block of a race result (`durationMs`, a wall-clock
measurement, is not modelled). -/
structure RaceMeta where
  totalRequests : Nat
  successCount : Nat
  failCount : Nat
  statusCodes : List Nat
  aiConstraint : NormalizedConstraint
deriving DecidableEq, Repr

/-- A race-condition probe result. -/
structure RaceResult where
  verdict : Verdict
  title : String
  description : String
  meta : RaceMeta
deriving DecidableEq, Repr

/-- `const BATCH_SIZE = 10`. -/
def BATCH_SIZE : Nat := 10

/-- `runRaceConditionTest(config)`.  The oracle interaction is modelled by
`oracleCall`; the burst is modelled by the per-request outcomes `fetches`
(`some status` = the fetch resolved, `none` = it rejected), which in the
source is always a list of `BATCH_SIZE` entries. -/
def runRaceConditionTest (oracleCall : OracleCall RawRaceConstraint)
    (fetches : List (Option Nat)) : RaceResult :=
  -- 1. AI analysis, starting from the strict default and overwritten by the
  -- normalized client answer unless the client call itself threw
  let constraint : NormalizedConstraint :=
    match oracleCall with
    | .clientThrew => { maxSuccesses := 1, reason := "Default strict safety" }
    | .ok raw => normalizeRunnerConstraint (analyzeRaceConditionIntent (some raw))
    | .groqFailure => normalizeRunnerConstraint (analyzeRaceConditionIntent none)
  -- 2./3. the parallel burst, each request settling independently
  let responses := fetches.map settleFetch
  -- 4. the tally
  let successes := (responses.filter (fun r => r.ok)).length
  let failures := (responses.filter (fun r => !r.ok)).length
  let distinct := (responses.map (fun r => r.status)).eraseDups
  let meta : RaceMeta :=
    { totalRequests := BATCH_SIZE
      successCount := successes
      failCount := failures
      statusCodes := distinct
      aiConstraint := constraint }
  -- 5. the verdict
  if (successes : Int) > constraint.maxSuccesses then
    { verdict := .FAIL
      title := "Race Condition Detected"
      description := "The API allowed more successful operations than the AI determined should be possible."
      meta := meta }
  else if successes = 0 ∧ failures > 0 then
    { verdict := .WARN
      title := "Endpoint Unstable"
      description := "The API crashed or rejected all requests during the stress test."
      meta := meta }
  else
    { verdict := .PASS
      title := "Race Condition Safe"
      description := "The API correctly handled high concurrency."
      meta := meta }

/-! ## HTTP call configuration

The axios request config of the idempotency runner sets an explicit
`timeout: 8000`; the `fetch` options object of the race runner
(`{ method, headers, body }`) has no timeout or abort signal at all. -/

/-- The `timeout` entry of the idempotency runner's axios config. -/
def idempotencyAxiosTimeoutMs : Option Nat := some 8000

/-- The (absent) timeout of the race runner's fetch options. -/
def raceFetchTimeoutMs : Option Nat := none

/-! ## Queue worker (workers/worker.ts) -/

/-- The Run status enum of the data model. -/
inductive RunStatus
  | PENDING
  | RUNNING
  | COMPLETED
  | FAILED
deriving DecidableEq, Repr

/-- The job's `config.testType` at runtime: the two recognized runner tags
plus anything else that reaches the worker (the intake zod schema also
admits `RATE_LIMIT`, which has no runner). -/
inductive TestType
  | IDEMPOTENCY
  | RACE_CONDITION
  | other : String → TestType
deriving DecidableEq, Repr

/-- The string the `default:` branch interpolates into its error. -/
def testTypeName : TestType → String
  | .IDEMPOTENCY => "IDEMPOTENCY"
  | .RACE_CONDITION => "RACE_CONDITION"
  | .other s => s

/-- The persisted TestRun record, restricted to the fields the worker
writes (`resultSummary`, a JSON copy of the probe result, is carried only
through `verdict` here). -/
structure TestRun where
  status : RunStatus
  verdict : Option Verdict
  logsError : Option String
  finishedAt : Option Nat
deriving DecidableEq, Repr

/-- All the I/O outcomes a single job processing can consume: the two
idempotency requests and oracle calls, and the race runner's oracle call
and burst. -/
structure JobEnv where
  idemResp1 : Option HttpResponse
  idemResp2 : Option HttpResponse
  idemTime1 : Nat
  idemTime2 : Nat
  idemSchemaOracle : Option IdempotencySchema
  idemMismatchOracle : Option MismatchVerdict
  raceOracle : OracleCall RawRaceConstraint
  raceFetches : List (Option Nat)
deriving Repr

/-- What one invocation of the worker's processor did: the final record,
the sequence of `status` values written to the database, and whether a
probe (runner) was actually executed. -/
structure WorkerOutcome where
  run : TestRun
  statusWrites : List RunStatus
  probeExecuted : Bool
deriving DecidableEq, Repr

/-- The worker's job processor.  It (1) unconditionally updates the run to
RUNNING — the current `run.status` is never read, there is no guard for
runs already in a terminal state — then (2) selects a runner by
`config.testType` (the `default:` branch throws `Unknown test type`), and
(3) persists COMPLETED with the runner's verdict, or, in the `catch`,
FAILED with verdict ERROR and the error message in `logs.error`. -/
def processJob (run : TestRun) (ty : TestType) (env : JobEnv) (now : Nat) : WorkerOutcome :=
  let running : TestRun := { run with status := .RUNNING }
  match ty with
  | .IDEMPOTENCY =>
      let result := (runIdempotencyTest env.idemResp1 env.idemResp2 env.idemTime1
        env.idemTime2 env.idemSchemaOracle env.idemMismatchOracle).1
      { run := { running with
          status := .COMPLETED
          verdict := some result.verdict
          finishedAt := some now }
        statusWrites := [.RUNNING, .COMPLETED]
        probeExecuted := true }
  | .RACE_CONDITION =>
      let result := runRaceConditionTest env.raceOracle env.raceFetches
      { run := { running with
          status := .COMPLETED
          verdict := some result.verdict
          finishedAt := some now }
        statusWrites := [.RUNNING, .COMPLETED]
        probeExecuted := true }
  | .other s =>
      { run := { running with
          status := .FAILED
          verdict := some .ERROR
          logsError := some ("Unknown test type: " ++ s)
          finishedAt := some now }
        statusWrites := [.RUNNING, .FAILED]
        probeExecuted := false }

/-- `firstDiff` returns `none` exactly when every field in the list agrees
between the two bodies. -/
lemma firstDiff_eq_none_iff (body1 body2 : RespData) (l : List String) :
    firstDiff body1 body2 l = none ↔ ∀ f ∈ l, getField body1 f = getField body2 f := by
  induction l with
  | nil => simp [firstDiff]
  | cons field rest ih =>
      simp only [firstDiff]
      by_cases h : getField body1 field ≠ getField body2 field
      · simp [h]
      · push_neg at h
        simp [h, ih]

/-- Claim C2: in `validateBodies`, identity fields are checked strictly
before data fields and evaluation short-circuits at the first differing
field; whenever both some identity field and some data field differ
between the two bodies, the verdict is FAIL with title
"Double Execution Detected", never WARN. -/
theorem C2_identity_checked_before_data (body1 body2 : RespData)
    (schema : IdempotencySchema)
    (hid : ∃ f ∈ schema.identity, getField body1 f ≠ getField body2 f)
    (hdata : ∃ f ∈ schema.data, getField body1 f ≠ getField body2 f) :
    (validateBodies body1 body2 schema).verdict = .FAIL ∧
    (validateBodies body1 body2 schema).title = "Double Execution Detected" := by
  have hne : firstDiff body1 body2 schema.identity ≠ none := by
    rw [Ne, firstDiff_eq_none_iff]
    intro hall
    obtain ⟨f, hf, hdiff⟩ := hid
    exact hdiff (hall f hf)
  cases hfd : firstDiff body1 body2 schema.identity with
  | none => exact absurd hfd hne
  | some p =>
      obtain ⟨field, val1, val2⟩ := p
      simp [validateBodies, hfd]

/-- Witness for C2 at the spec's own example: bodies differing in the
identity field `id` and in the data field `balance`. -/
theorem C2_identity_checked_before_data_witness :
    (∃ f ∈ ["id"],
        getField (.obj [("id", .s "a1"), ("balance", .n 100)]) f ≠
        getField (.obj [("id", .s "a2"), ("balance", .n 200)]) f) ∧
    (∃ f ∈ ["balance"],
        getField (.obj [("id", .s "a1"), ("balance", .n 100)]) f ≠
        getField (.obj [("id", .s "a2"), ("balance", .n 200)]) f) ∧
    ((validateBodies (.obj [("id", .s "a1"), ("balance", .n 100)])
        (.obj [("id", .s "a2"), ("balance", .n 200)])
        ⟨["id"], [], ["balance"]⟩).verdict = .FAIL ∧
     (validateBodies (.obj [("id", .s "a1"), ("balance", .n 100)])
        (.obj [("id", .s "a2"), ("balance", .n 200)])
        ⟨["id"], [], ["balance"]⟩).title = "Double Execution Detected") :=
  ⟨by decide, by decide,
    C2_identity_checked_before_data _ _ ⟨["id"], [], ["balance"]⟩ (by decide) (by decide)⟩

/-- Claim C3: whenever R1's status is in [200,300) and R2's status is 409,
the idempotency runner returns PASS with title exactly
"Conflict Correctly Handled", regardless of the bodies, the oracle
outcomes and the latencies — the gold-standard rule fires before the
status-mismatch and body-comparison rules. -/
theorem C3_conflict_gold_standard (r1 r2 : HttpResponse) (t1 t2 : Nat)
    (so : Option IdempotencySchema) (mo : Option MismatchVerdict)
    (h1 : 200 ≤ r1.status) (h2 : r1.status < 300) (h3 : r2.status = 409) :
    (runIdempotencyTest (some r1) (some r2) t1 t2 so mo).1.verdict = .PASS ∧
    (runIdempotencyTest (some r1) (some r2) t1 t2 so mo).1.title
      = "Conflict Correctly Handled" := by
  have h500 : ¬ r1.status ≥ 500 := by omega
  simp [runIdempotencyTest, h500, h1, h2, h3]

/-- Witness for C3: R1 status 201 with an object body, R2 status 409. -/
theorem C3_conflict_gold_standard_witness :
    (200 ≤ 201 ∧ 201 < 300 ∧ (409 : Nat) = 409) ∧
    ((runIdempotencyTest (some ⟨201, .obj [("id", .s "x")]⟩)
        (some ⟨409, .obj [("error", .s "dup")]⟩) 3 4 none none).1.verdict = .PASS ∧
     (runIdempotencyTest (some ⟨201, .obj [("id", .s "x")]⟩)
        (some ⟨409, .obj [("error", .s "dup")]⟩) 3 4 none none).1.title
       = "Conflict Correctly Handled") :=
  ⟨by decide,
    C3_conflict_gold_standard ⟨201, .obj [("id", .s "x")]⟩ ⟨409, .obj [("error", .s "dup")]⟩
      3 4 none none (by decide) (by decide) (by decide)⟩

/-- Claim C5: when the statuses differ (and neither the server-crash nor
the gold-standard rule fired), the runner adopts the mismatch
adjudicator's verdict and its reason verbatim as the description; when the
oracle is unavailable, the verdict is FAIL with reason exactly
"AI Analysis Failed, defaulting to strict fail.". -/
theorem C5_status_mismatch_adjudication (r1 r2 : HttpResponse) (t1 t2 : Nat)
    (so : Option IdempotencySchema) (mo : Option MismatchVerdict)
    (h500 : r1.status < 500)
    (hgold : ¬ (200 ≤ r1.status ∧ r1.status < 300 ∧ r2.status = 409))
    (hne : r1.status ≠ r2.status) :
    ((runIdempotencyTest (some r1) (some r2) t1 t2 so mo).1.verdict
        = (evaluateIdempotencyMismatch mo).verdict.toVerdict ∧
     (runIdempotencyTest (some r1) (some r2) t1 t2 so mo).1.description
        = (evaluateIdempotencyMismatch mo).reason) ∧
    (mo = none →
      (runIdempotencyTest (some r1) (some r2) t1 t2 so mo).1.verdict = .FAIL ∧
      (runIdempotencyTest (some r1) (some r2) t1 t2 so mo).1.description
        = "AI Analysis Failed, defaulting to strict fail.") := by
  have h500' : ¬ r1.status ≥ 500 := by omega
  have hmain :
      (runIdempotencyTest (some r1) (some r2) t1 t2 so mo).1.verdict
          = (evaluateIdempotencyMismatch mo).verdict.toVerdict ∧
      (runIdempotencyTest (some r1) (some r2) t1 t2 so mo).1.description
          = (evaluateIdempotencyMismatch mo).reason := by
    simp [runIdempotencyTest, h500', hgold, hne]
  refine ⟨hmain, ?_⟩
  rintro rfl
  refine ⟨hmain.1, hmain.2⟩

/-- Witness for C5: R1 status 200, R2 status 400 with no oracle answer —
the strict-fail fallback drives the result. -/
theorem C5_status_mismatch_adjudication_witness :
    ((200 : Nat) < 500 ∧
     ¬ (200 ≤ 200 ∧ 200 < 300 ∧ (400 : Nat) = 409) ∧
     (200 : Nat) ≠ 400) ∧
    ((runIdempotencyTest (some ⟨200, .obj [("ok", .b true)]⟩)
        (some ⟨400, .obj [("err", .s "bad")]⟩) 1 2 none none).1.verdict = .FAIL ∧
     (runIdempotencyTest (some ⟨200, .obj [("ok", .b true)]⟩)
        (some ⟨400, .obj [("err", .s "bad")]⟩) 1 2 none none).1.description
       = "AI Analysis Failed, defaulting to strict fail.") :=
  ⟨by decide,
    (C5_status_mismatch_adjudication ⟨200, .obj [("ok", .b true)]⟩
        ⟨400, .obj [("err", .s "bad")]⟩ 1 2 none none
        (by decide) (by decide) (by decide)).2 rfl⟩

/-- Claim C8: when R1's status is at least 500, the idempotency runner
returns FAIL with title "Server Crash", reports `req2Status = 0`, and the
run issues only the single request — whatever a second call would have
returned is never consumed. -/
theorem C8_server_crash_no_second_request (r1 : HttpResponse)
    (resp2 : Option HttpResponse) (t1 t2 : Nat)
    (so : Option IdempotencySchema) (mo : Option MismatchVerdict)
    (h : r1.status ≥ 500) :
    (runIdempotencyTest (some r1) resp2 t1 t2 so mo).1.verdict = .FAIL ∧
    (runIdempotencyTest (some r1) resp2 t1 t2 so mo).1.title = "Server Crash" ∧
    (runIdempotencyTest (some r1) resp2 t1 t2 so mo).1.meta.req2Status = 0 ∧
    (runIdempotencyTest (some r1) resp2 t1 t2 so mo).2 = 1 := by
  simp [runIdempotencyTest, h]

/-- Witness for C8 at R1 status 500. -/
theorem C8_server_crash_no_second_request_witness :
    (500 : Nat) ≥ 500 ∧
    ((runIdempotencyTest (some ⟨500, .raw (.s "boom")⟩) none 7 0 none none).1.verdict = .FAIL ∧
     (runIdempotencyTest (some ⟨500, .raw (.s "boom")⟩) none 7 0 none none).1.title
       = "Server Crash" ∧
     (runIdempotencyTest (some ⟨500, .raw (.s "boom")⟩) none 7 0 none none).1.meta.req2Status = 0 ∧
     (runIdempotencyTest (some ⟨500, .raw (.s "boom")⟩) none 7 0 none none).2 = 1) :=
  ⟨by decide,
    C8_server_crash_no_second_request ⟨500, .raw (.s "boom")⟩ none 7 0 none none (by decide)⟩

/-- Claim C10: the duplicated status-mismatch branch of the idempotency
runner is unreachable — the function with the duplicate block removed is
extensionally equal to the original on every input. -/
theorem C10_duplicate_branch_unreachable (resp1 resp2 : Option HttpResponse)
    (t1 t2 : Nat) (so : Option IdempotencySchema) (mo : Option MismatchVerdict) :
    runIdempotencyTest resp1 resp2 t1 t2 so mo
      = runIdempotencyTestDedup resp1 resp2 t1 t2 so mo := by
  cases resp1 with
  | none => rfl
  | some r1 =>
      cases resp2 with
      | none => simp [runIdempotencyTest, runIdempotencyTestDedup]
      | some r2 =>
          simp only [runIdempotencyTest, runIdempotencyTestDedup]
          split_ifs <;> rfl

/-- Claim C4: for every tally of the fixed-size batch, the race verdict is
classified in order: `successCount > maxSuccesses` gives FAIL
"Race Condition Detected"; otherwise `successCount = 0` with a positive
`failCount` gives WARN "Endpoint Unstable"; otherwise PASS
"Race Condition Safe". -/
theorem C4_race_verdict_trichotomy (oc : OracleCall RawRaceConstraint)
    (fetches : List (Option Nat)) (hlen : fetches.length = BATCH_SIZE) :
    (((runRaceConditionTest oc fetches).meta.successCount : Int)
        > (runRaceConditionTest oc fetches).meta.aiConstraint.maxSuccesses →
      (runRaceConditionTest oc fetches).verdict = .FAIL ∧
      (runRaceConditionTest oc fetches).title = "Race Condition Detected") ∧
    (¬ (((runRaceConditionTest oc fetches).meta.successCount : Int)
        > (runRaceConditionTest oc fetches).meta.aiConstraint.maxSuccesses) →
      (runRaceConditionTest oc fetches).meta.successCount = 0 →
      0 < (runRaceConditionTest oc fetches).meta.failCount →
      (runRaceConditionTest oc fetches).verdict = .WARN ∧
      (runRaceConditionTest oc fetches).title = "Endpoint Unstable") ∧
    (¬ (((runRaceConditionTest oc fetches).meta.successCount : Int)
        > (runRaceConditionTest oc fetches).meta.aiConstraint.maxSuccesses) →
      ¬ ((runRaceConditionTest oc fetches).meta.successCount = 0 ∧
         0 < (runRaceConditionTest oc fetches).meta.failCount) →
      (runRaceConditionTest oc fetches).verdict = .PASS ∧
      (runRaceConditionTest oc fetches).title = "Race Condition Safe") := by
  simp only [runRaceConditionTest]
  split_ifs with h1 h2
  · exact ⟨fun _ => ⟨rfl, rfl⟩, fun h _ _ => absurd h1 h, fun h _ => absurd h1 h⟩
  · exact ⟨fun h => absurd h h1, fun _ _ _ => ⟨rfl, rfl⟩, fun _ hn => absurd h2 hn⟩
  · exact ⟨fun h => absurd h h1, fun _ hs hf => absurd ⟨hs, hf⟩ h2, fun _ _ => ⟨rfl, rfl⟩⟩

/-- Witness for C4: a full batch of network failures under the strict
fallback constraint — the WARN branch fires. -/
theorem C4_race_verdict_trichotomy_witness :
    (List.replicate 10 (none : Option Nat)).length = BATCH_SIZE ∧
    (((runRaceConditionTest .groqFailure (List.replicate 10 none)).meta.successCount : Int)
        > (runRaceConditionTest .groqFailure (List.replicate 10 none)).meta.aiConstraint.maxSuccesses →
      (runRaceConditionTest .groqFailure (List.replicate 10 none)).verdict = .FAIL ∧
      (runRaceConditionTest .groqFailure (List.replicate 10 none)).title = "Race Condition Detected") ∧
    (¬ (((runRaceConditionTest .groqFailure (List.replicate 10 none)).meta.successCount : Int)
        > (runRaceConditionTest .groqFailure (List.replicate 10 none)).meta.aiConstraint.maxSuccesses) →
      (runRaceConditionTest .groqFailure (List.replicate 10 none)).meta.successCount = 0 →
      0 < (runRaceConditionTest .groqFailure (List.replicate 10 none)).meta.failCount →
      (runRaceConditionTest .groqFailure (List.replicate 10 none)).verdict = .WARN ∧
      (runRaceConditionTest .groqFailure (List.replicate 10 none)).title = "Endpoint Unstable") ∧
    (¬ (((runRaceConditionTest .groqFailure (List.replicate 10 none)).meta.successCount : Int)
        > (runRaceConditionTest .groqFailure (List.replicate 10 none)).meta.aiConstraint.maxSuccesses) →
      ¬ ((runRaceConditionTest .groqFailure (List.replicate 10 none)).meta.successCount = 0 ∧
         0 < (runRaceConditionTest .groqFailure (List.replicate 10 none)).meta.failCount) →
      (runRaceConditionTest .groqFailure (List.replicate 10 none)).verdict = .PASS ∧
      (runRaceConditionTest .groqFailure (List.replicate 10 none)).title = "Race Condition Safe") :=
  ⟨by decide, C4_race_verdict_trichotomy .groqFailure (List.replicate 10 none) (by decide)⟩

/-- Counterexample for C6: when the Groq call of the concurrency-intent
oracle fails, the constraint the race runner proceeds with carries reason
"Fallback Default" (the client-level fallback), not the claimed
"Default strict safety" (the runner's own catch value, reached only when
the client itself throws). -/
theorem C6_counterexample :
    (runRaceConditionTest .groqFailure
        (List.replicate BATCH_SIZE (some 200))).meta.aiConstraint.reason
      = "Fallback Default" ∧
    (runRaceConditionTest .groqFailure
        (List.replicate BATCH_SIZE (some 200))).meta.aiConstraint.reason
      ≠ "Default strict safety" := by
  constructor
  · rfl
  · decide

/-- Amended C6: no oracle operation raises (`askGroqJSON` swallows every
failure into its fallback, and both clients are total); on oracle failure
`classifyFields` falls back to `identity=[], noise=[]` with every
top-level key of the body as `data`, and the race runner proceeds with the
constraint `maxSuccesses = 1` whose reason is "Fallback Default" (the
runner's "Default strict safety" value survives only when the oracle
client itself throws). -/
theorem C6_oracle_fallbacks (kvs : List (String × JVal)) :
    analyzeIdempotencySchema (.obj kvs) none
      = { identity := [], noise := [], data := kvs.map (·.1) } ∧
    (∀ fetches : List (Option Nat),
      (runRaceConditionTest .groqFailure fetches).meta.aiConstraint
        = { maxSuccesses := 1, reason := "Fallback Default" }) ∧
    (∀ fetches : List (Option Nat),
      (runRaceConditionTest .clientThrew fetches).meta.aiConstraint
        = { maxSuccesses := 1, reason := "Default strict safety" }) := by
  refine ⟨?_, ?_, ?_⟩
  · cases kvs <;>
      simp [analyzeIdempotencySchema, objectKeys, isFalsy, askGroqJSON]
  · intro fetches
    simp only [runRaceConditionTest]
    split_ifs <;> rfl
  · intro fetches
    simp only [runRaceConditionTest]
    split_ifs <;> rfl

/-- Counterexample for C7: a timed-out (thrown) second request does not
enter the mismatch-classification rules — the runner's single try/catch
turns it into verdict ERROR with title "Execution Error", and the fetch
options of the race burst carry no timeout at all. -/
theorem C7_counterexample :
    (runIdempotencyTest (some ⟨200, .raw (.s "ok")⟩) none 1 2 none none).1.verdict
      = .ERROR ∧
    (runIdempotencyTest (some ⟨200, .raw (.s "ok")⟩) none 1 2 none none).1.title
      = "Execution Error" ∧
    raceFetchTimeoutMs = none := by
  refine ⟨by decide, by decide, rfl⟩

/-- Amended C7: the idempotency runner's axios calls carry the 8-second
timeout while the race runner's fetch calls carry none; a per-request
failure in the burst is tallied as status 0; a thrown R1 yields verdict
ERROR — and so does a thrown R2, because both requests sit in the same
try/catch (a timed-out R2 never reaches the mismatch rules). -/
theorem C7_timeout_semantics (r1 : HttpResponse) (resp2 : Option HttpResponse)
    (t1 t2 : Nat) (so : Option IdempotencySchema) (mo : Option MismatchVerdict)
    (h : r1.status < 500) :
    idempotencyAxiosTimeoutMs = some 8000 ∧
    raceFetchTimeoutMs = none ∧
    settleFetch none = { status := 0, ok := false } ∧
    (runIdempotencyTest none resp2 t1 t2 so mo).1.verdict = .ERROR ∧
    (runIdempotencyTest (some r1) none t1 t2 so mo).1.verdict = .ERROR := by
  have h500 : ¬ r1.status ≥ 500 := by omega
  refine ⟨rfl, rfl, rfl, rfl, ?_⟩
  simp [runIdempotencyTest, h500]

/-- Witness for C7's amended statement at R1 status 200. -/
theorem C7_timeout_semantics_witness :
    (200 : Nat) < 500 ∧
    (idempotencyAxiosTimeoutMs = some 8000 ∧
     raceFetchTimeoutMs = none ∧
     settleFetch none = { status := 0, ok := false } ∧
     (runIdempotencyTest none (some ⟨200, .obj []⟩) 1 2 none none).1.verdict = .ERROR ∧
     (runIdempotencyTest (some ⟨200, .obj []⟩) none 1 2 none none).1.verdict = .ERROR) :=
  ⟨by decide,
    C7_timeout_semantics ⟨200, .obj []⟩ (some ⟨200, .obj []⟩) 1 2 none none (by decide)⟩

/-- Code behaviour behind C1: processing a job whose run is already in the
terminal COMPLETED state (queue redelivery) writes RUNNING again and
re-executes the probe — the worker has no terminal-state no-op guard, so
the claimed monotonic transition discipline is violated. -/
theorem C1_terminal_run_reexecuted :
    ({ status := .COMPLETED, verdict := some .PASS, logsError := none,
       finishedAt := some 1 } : TestRun).status = .COMPLETED ∧
    (processJob
        { status := .COMPLETED, verdict := some .PASS, logsError := none, finishedAt := some 1 }
        .IDEMPOTENCY
        { idemResp1 := some ⟨503, .raw (.s "down")⟩, idemResp2 := none,
          idemTime1 := 1, idemTime2 := 0,
          idemSchemaOracle := none, idemMismatchOracle := none,
          raceOracle := .groqFailure, raceFetches := [] } 2).statusWrites
      = [.RUNNING, .COMPLETED] ∧
    (processJob
        { status := .COMPLETED, verdict := some .PASS, logsError := none, finishedAt := some 1 }
        .IDEMPOTENCY
        { idemResp1 := some ⟨503, .raw (.s "down")⟩, idemResp2 := none,
          idemTime1 := 1, idemTime2 := 0,
          idemSchemaOracle := none, idemMismatchOracle := none,
          raceOracle := .groqFailure, raceFetches := [] } 2).probeExecuted = true := by
  refine ⟨rfl, by decide, by decide⟩

/-- Claim C9: a dequeued job whose `testType` is not a recognized runner
type moves the run to terminal FAILED with verdict ERROR and the
descriptive message `Unknown test type: ...` recorded in the logs; no
probe is executed and the processor returns normally (it is a total
function, so the worker does not crash and other runs keep processing). -/
theorem C9_unknown_test_type_failed (run : TestRun) (env : JobEnv)
    (s : String) (now : Nat) :
    (processJob run (.other s) env now).run.status = .FAILED ∧
    (processJob run (.other s) env now).run.verdict = some .ERROR ∧
    (processJob run (.other s) env now).run.logsError
      = some ("Unknown test type: " ++ s) ∧
    (processJob run (.other s) env now).run.finishedAt = some now ∧
    (processJob run (.other s) env now).probeExecuted = false :=
  ⟨rfl, rfl, rfl, rfl, rfl⟩

end ApiGuard
